import Mathlib

/-
Verification of the filter-expression compiler: lexer, alias registry,
recursive-descent parser, metric-spec builder, entity adapter and the
GraphQL code generator.  Each definition is a shallow embedding of the
corresponding Python function; source locations are given in doc comments.
-/

/- ===================== Python string primitives ===================== -/

/-- Python `\s` whitespace characters (space, tab, newline, carriage return,
vertical tab, form feed). -/
def isPySpace (c : Char) : Bool :=
  c = ' ' || c = '\t' || c = '\n' || c = '\r' || c.toNat = 11 || c.toNat = 12

/-- Python regex word character `\w` restricted to ASCII, as used by the
`\b` boundaries of the lexer token patterns. -/
def isWordChar (c : Char) : Bool :=
  ('a' ≤ c && c ≤ 'z') || ('A' ≤ c && c ≤ 'Z') || ('0' ≤ c && c ≤ '9') || c = '_'

/-- Characters matched by the `IDENT` / `STRING` token pattern `[A-Z_]+`. -/
def isIdentChar (c : Char) : Bool :=
  ('A' ≤ c && c ≤ 'Z') || c = '_'

/-- Python `str.upper()` (ASCII; the inputs handled here are ASCII or
symbols on which `upper` is the identity). -/
def pyUpper (s : String) : String := ⟨s.data.map Char.toUpper⟩

/-- Python `str.lower()` (ASCII, see `pyUpper`). -/
def pyLower (s : String) : String := ⟨s.data.map Char.toLower⟩

/-- Python `str.strip()`: remove leading and trailing whitespace. -/
def pyTrim (s : String) : String :=
  ⟨((s.data.dropWhile isPySpace).reverse.dropWhile isPySpace).reverse⟩

def digitsToNat (ds : List Char) : Nat :=
  ds.foldl (fun n c => 10 * n + (c.toNat - '0'.toNat)) 0

/-- Python `int(str)`: optional sign followed by digits, surrounding
whitespace allowed; `None` models the `ValueError` raise.  (The rarely used
underscore digit separators of Python 3.6+ are not modelled; no token
produced by the lexer contains them.) -/
def pyInt? (s : String) : Option Int :=
  match (pyTrim s).data with
  | [] => none
  | '-' :: ds => if ds ≠ [] && ds.all Char.isDigit then some (-(digitsToNat ds : Int)) else none
  | '+' :: ds => if ds ≠ [] && ds.all Char.isDigit then some (digitsToNat ds : Int) else none
  | ds => if ds.all Char.isDigit then some (digitsToNat ds : Int) else none

def splitCharAux (sep : Char) : List Char → List Char → List String
  | acc, [] => [String.mk acc.reverse]
  | acc, c :: rest =>
    if c = sep then String.mk acc.reverse :: splitCharAux sep [] rest
    else splitCharAux sep (c :: acc) rest

/-- Python `str.split(sep)` for a one-character separator (no run
collapsing; the empty string yields `[""]`). -/
def pySplit (sep : Char) (s : String) : List String := splitCharAux sep [] s.data

/-- The pydantic pattern `^\d{4}-\d{2}-\d{2}$` on `DateFilter.value`
(filter_models.py line 97). -/
def isIsoDate (s : String) : Bool :=
  match s.data with
  | [y1, y2, y3, y4, h1, m1, m2, h2, d1, d2] =>
    y1.isDigit && y2.isDigit && y3.isDigit && y4.isDigit && h1 = '-' &&
    m1.isDigit && m2.isDigit && h2 = '-' && d1.isDigit && d2.isDigit
  | _ => false

/- ===================== Alias registry ===================== -/

/-- `AliasEnum` resolution (base_models.py lines 19-36): a Python `Enum`
call first looks the string up among the exact member values; on failure
`_missing_` strips and lowercases it and scans the members in declaration
order, matching either the lowercased canonical value or the alias set
(aliases are lowercased at class construction, base_models.py line 22).
`none` models the `ValueError` raise of `_missing_`. -/
def aliasResolve {α : Type} (members : List α) (value : α → String)
    (rawAliases : α → List String) (s : String) : Option α :=
  match members.find? (fun m => value m = s) with
  | some m => some m
  | none =>
    let val := pyLower (pyTrim s)
    members.find? (fun m =>
      val = pyLower (value m) || ((rawAliases m).map pyLower).contains val)

/- Enumerations transcribed from src/instructor/filter_models.py and
src/instructor/metric_models.py: member order, canonical values and alias
tuples follow the source declarations. -/

inductive ComparisonProperty where
  | GreaterOrEqual
  | LessOrEqual
  | LessThan
  | GreaterThan
  | Equal
  | NotEqual
deriving DecidableEq

def ComparisonProperty.value : ComparisonProperty → String
  | .GreaterOrEqual => "GE"
  | .LessOrEqual => "LE"
  | .LessThan => "LT"
  | .GreaterThan => "GT"
  | .Equal => "EQ"
  | .NotEqual => "NE"

def ComparisonProperty.rawAliases : ComparisonProperty → List String
  | .GreaterOrEqual => ["greater than or equal", "at least", "no less than", "≥", "=>"]
  | .LessOrEqual => ["less than or equal", "at most", "no more than", "≤", "<="]
  | .LessThan => ["less than", "fewer than", "<", "below"]
  | .GreaterThan => ["greater than", "more than", ">", "above"]
  | .Equal => ["equal to", "equals", "==", "is"]
  | .NotEqual => ["not equal to", "not equals", "!=", "is not"]

def ComparisonProperty.members : List ComparisonProperty :=
  [.GreaterOrEqual, .LessOrEqual, .LessThan, .GreaterThan, .Equal, .NotEqual]

def ComparisonProperty.fromValue? : String → Option ComparisonProperty :=
  aliasResolve ComparisonProperty.members ComparisonProperty.value ComparisonProperty.rawAliases

inductive SexProperty where
  | Male
  | Female
  | Other
  | Unknown
deriving DecidableEq

def SexProperty.value : SexProperty → String
  | .Male => "MALE"
  | .Female => "FEMALE"
  | .Other => "OTHER"
  | .Unknown => "UNKNOWN"

def SexProperty.rawAliases : SexProperty → List String
  | .Male => ["man", "m"]
  | .Female => ["woman", "f"]
  | .Other => ["non-binary", "genderqueer", "agender", "genderfluid"]
  | .Unknown => ["unspecified", "not provided", "n/a", "na"]

def SexProperty.members : List SexProperty :=
  [.Male, .Female, .Other, .Unknown]

def SexProperty.fromValue? : String → Option SexProperty :=
  aliasResolve SexProperty.members SexProperty.value SexProperty.rawAliases

inductive StrokeProperty where
  | Ischemic
  | IntracerebralHemorrhage
  | TransientIschemic
  | Subaracnoid
  | CerebralVenousThrombosis
  | StrokeMimics
  | Undetermined
deriving DecidableEq

def StrokeProperty.value : StrokeProperty → String
  | .Ischemic => "ISCHEMIC"
  | .IntracerebralHemorrhage => "INTRACEREBRAL_HEMORRHAGE"
  | .TransientIschemic => "TRANSIENT_ISCHEMIC"
  | .Subaracnoid => "SUBARACHNOID_HEMORRHAGE"
  | .CerebralVenousThrombosis => "CEREBRAL_VENOUS_THROMBOSIS"
  | .StrokeMimics => "STROKE_MIMICS"
  | .Undetermined => "UNDETERMINED"

def StrokeProperty.rawAliases : StrokeProperty → List String
  | .Ischemic => ["ischemic stroke", "clot stroke", "blockage stroke"]
  | .IntracerebralHemorrhage => ["ich", "brain bleed", "intracerebral bleeding", "intraparenchymal hemorrhage"]
  | .TransientIschemic => ["tia", "mini stroke", "transient ischemic attack"]
  | .Subaracnoid => ["sah", "aneurysm rupture", "subarachnoid bleed"]
  | .CerebralVenousThrombosis => ["cvt", "venous stroke", "cerebral vein clot"]
  | .StrokeMimics => ["mimics", "stroke-like symptoms", "not a real stroke", "conversion disorder"]
  | .Undetermined => ["unknown stroke type", "unspecified", "unclear diagnosis"]

def StrokeProperty.members : List StrokeProperty :=
  [.Ischemic, .IntracerebralHemorrhage, .TransientIschemic, .Subaracnoid, .CerebralVenousThrombosis, .StrokeMimics, .Undetermined]

def StrokeProperty.fromValue? : String → Option StrokeProperty :=
  aliasResolve StrokeProperty.members StrokeProperty.value StrokeProperty.rawAliases

inductive BooleanProperty where
  | Thrombectomy
  | Thrombolysis
  | Before_Onset_Cilostazol
  | Before_Onset_Clopidogrel
  | Before_Onset_Ticagrelor
  | Before_Onset_Ticlopidine
  | Before_Onset_Prasugrel
  | Before_Onset_Dipyridamole
  | Before_Onset_Other_Antiplatelet
  | Before_Onset_Any_Antiplatelet
  | Before_Onset_Warfarins
  | Before_Onset_Dabigatran
  | Before_Onset_Rivaroxaban
  | Before_Onset_Apixaban
  | Before_Onset_Edoxaban
  | Before_Onset_Other_Anticoagulant
  | Before_Onset_Any_Anticoagulant
  | Before_Onset_Statin
  | Before_Onset_Heparin
  | Before_Onset_Contraception
deriving DecidableEq

def BooleanProperty.value : BooleanProperty → String
  | .Thrombectomy => "THROMBECTOMY"
  | .Thrombolysis => "THROMBOLYSIS"
  | .Before_Onset_Cilostazol => "BEFORE_ONSET_CILOSTAZOL"
  | .Before_Onset_Clopidogrel => "BEFORE_ONSET_CLOPIDOGREL"
  | .Before_Onset_Ticagrelor => "BEFORE_ONSET_TICAGRELOR"
  | .Before_Onset_Ticlopidine => "BEFORE_ONSET_TICLOPIDINE"
  | .Before_Onset_Prasugrel => "BEFORE_ONSET_PRASUGREL"
  | .Before_Onset_Dipyridamole => "BEFORE_ONSET_DIPYRIDAMOLE"
  | .Before_Onset_Other_Antiplatelet => "BEFORE_ONSET_OTHER_ANTIPLATELET"
  | .Before_Onset_Any_Antiplatelet => "BEFORE_ONSET_ANY_ANTIPLATELET"
  | .Before_Onset_Warfarins => "BEFORE_ONSET_WARFARINS"
  | .Before_Onset_Dabigatran => "BEFORE_ONSET_DABIGATRAN"
  | .Before_Onset_Rivaroxaban => "BEFORE_ONSET_RIVAROXABAN"
  | .Before_Onset_Apixaban => "BEFORE_ONSET_APIXABAN"
  | .Before_Onset_Edoxaban => "BEFORE_ONSET_EDOXABAN"
  | .Before_Onset_Other_Anticoagulant => "BEFORE_ONSET_OTHER_ANTICOAGULANT"
  | .Before_Onset_Any_Anticoagulant => "BEFORE_ONSET_ANY_ANTICOAGULANT"
  | .Before_Onset_Statin => "BEFORE_ONSET_STATIN"
  | .Before_Onset_Heparin => "BEFORE_ONSET_HEPARIN"
  | .Before_Onset_Contraception => "BEFORE_ONSET_CONTRACEPTION"

def BooleanProperty.rawAliases : BooleanProperty → List String
  | .Thrombectomy => ["clot removal", "mechanical thrombectomy", "embolectomy"]
  | .Thrombolysis => ["tpa", "alteplase", "clot-busting drug", "lysis treatment"]
  | .Before_Onset_Cilostazol => ["cilostazol before onset"]
  | .Before_Onset_Clopidogrel => ["plavix", "clopidogrel before stroke"]
  | .Before_Onset_Ticagrelor => ["brilinta", "ticagrelor pre-stroke"]
  | .Before_Onset_Ticlopidine => ["ticlopidine before stroke"]
  | .Before_Onset_Prasugrel => ["prasugrel before stroke"]
  | .Before_Onset_Dipyridamole => ["dipyridamole pre-stroke"]
  | .Before_Onset_Other_Antiplatelet => ["other antiplatelet used", "unknown antiplatelet"]
  | .Before_Onset_Any_Antiplatelet => ["on any antiplatelet", "antiplatelet therapy"]
  | .Before_Onset_Warfarins => ["warfarin", "coumadin"]
  | .Before_Onset_Dabigatran => ["pradaxa", "dabigatran before stroke"]
  | .Before_Onset_Rivaroxaban => ["xarelto", "rivaroxaban pre-stroke"]
  | .Before_Onset_Apixaban => ["eliquis", "apixaban before stroke"]
  | .Before_Onset_Edoxaban => ["lixiana", "edoxaban pre-stroke"]
  | .Before_Onset_Other_Anticoagulant => ["other anticoagulant used", "unknown blood thinner"]
  | .Before_Onset_Any_Anticoagulant => ["on any anticoagulant", "any blood thinner"]
  | .Before_Onset_Statin => ["on statin", "statin before stroke", "lipid lowering"]
  | .Before_Onset_Heparin => ["on heparin", "heparin before stroke"]
  | .Before_Onset_Contraception => ["on birth control", "hormonal contraception", "contraceptives before stroke"]

def BooleanProperty.members : List BooleanProperty :=
  [.Thrombectomy, .Thrombolysis, .Before_Onset_Cilostazol, .Before_Onset_Clopidogrel, .Before_Onset_Ticagrelor, .Before_Onset_Ticlopidine, .Before_Onset_Prasugrel, .Before_Onset_Dipyridamole, .Before_Onset_Other_Antiplatelet, .Before_Onset_Any_Antiplatelet, .Before_Onset_Warfarins, .Before_Onset_Dabigatran, .Before_Onset_Rivaroxaban, .Before_Onset_Apixaban, .Before_Onset_Edoxaban, .Before_Onset_Other_Anticoagulant, .Before_Onset_Any_Anticoagulant, .Before_Onset_Statin, .Before_Onset_Heparin, .Before_Onset_Contraception]

def BooleanProperty.fromValue? : String → Option BooleanProperty :=
  aliasResolve BooleanProperty.members BooleanProperty.value BooleanProperty.rawAliases

inductive OperatorProperty where
  | AND
  | OR
  | NOT
deriving DecidableEq

def OperatorProperty.value : OperatorProperty → String
  | .AND => "AND"
  | .OR => "OR"
  | .NOT => "NOT"

def OperatorProperty.rawAliases : OperatorProperty → List String
  | .AND => ["&", "&&"]
  | .OR => ["|", "||"]
  | .NOT => ["!=", "=!", "!!"]

def OperatorProperty.members : List OperatorProperty :=
  [.AND, .OR, .NOT]

def OperatorProperty.fromValue? : String → Option OperatorProperty :=
  aliasResolve OperatorProperty.members OperatorProperty.value OperatorProperty.rawAliases


inductive KPI where
  | AaDtnLe60
  | AaDtnLe45
  | AaDtgLe120
  | AaDtgLe90
  | AaRecanalization
  | AaImaging
  | AaSwallowingScreening
  | AaAnticoagulants
  | AaAntithrombotics
  | AaStrokeUnit
  | Age
  | WakeupStroke
  | InhospitalStroke
  | ArrivalMode
  | EmsPrenotification
  | AdmissionDepartment
  | FirstContactPlace
  | HospitalizedIn
  | Sex
  | RiskFactorsType
  | BeforeOnsetMedication
  | BeforeOnsetMedicationAisTia
  | BeforeOnsetMedicationIch
  | BeforeOnsetAntiplateletType
  | BeforeOnsetAnticoagulantType
  | AdmissionNihss
  | PrestrokeMrs
  | Glucose
  | Cholesterol
  | SystolicPressure
  | DiastolicPressure
  | InrMode
  | ImagingDone
  | ImagingType
  | OcclusionFound
  | OcclusionSite
  | OldInfarctsSeen
  | OldInfarctsType
  | PerfusionDeficitType
  | PerfusionCore
  | Hypoperfusion
  | StrokeType
  | StrokeMimicsDiagnosis
  | Thrombolysis
  | Thrombectomy
  | ThrombolysisOnly
  | ThrombolysisAndThrombectomy
  | Recanalization
  | Dtn
  | DtgPrimary
  | DtgSecondary
  | Dido
  | DoorToReperfusion
  | MticiScore
  | NoThrombolysisReason
  | NoThrombectomyReason
  | MtComplicationsType
  | MtComplications
  | ThrombolysisDrugs
  | ThrombolysisDrugDose
  | ThrombolysisApplicationDepartment
  | PostRecanalizationFindings
  | PostRecanalizationFindingType
  | HemorrhagicTransformation
  | TiaClinicalSymptoms
  | TiaSymptomsDuration
  | BleedingSourceFound
  | IchBleedingVolume
  | IchScore
  | IchTreatment
  | IchTreatmentType
  | IchTreatmentTypeExtended
  | BleedingReasonFound
  | BleedingReasonType
  | BleedingAntidoteToAnticoagulants
  | AnticoagulantReversal
  | AnticoagulantReversalGiven
  | IntraventicularHemorrhage
  | InfratentorialHemorrhage
  | SahTreatment
  | SahTreatmentType
  | Nimodipine
  | HuntHessScore
  | CvtTreatment
  | CvtTreatmentType
  | PostAcuteCare
  | Craniectomy
  | CraniectomyAgeGt60
  | CarotidArteriesImaging
  | CarotidStenosis
  | CarotidStenosisLevel
  | CarotidEndarterectomy
  | CarotidEndarterectomyStenosisGt70
  | AtrialFibrilationFlutter
  | StrokeEtiologyKnownAis
  | StrokeEtiologyTypeAis
  | StrokeEtiologyKnownAisTia
  | StrokeEtiologyTypeAisTia
  | VteInterventionAis
  | VteInterventionIch
  | VteInterventionTypeAis
  | VteInterventionTypeIch
  | PostStrokeComplications
  | PostStrokeComplicationsType
  | Day_1TemperatureChecks
  | Day_2TemperatureChecks
  | Day_3TemperatureChecks
  | ParacetamolOnFever
  | Day_1HyperglycemiaChecks
  | Day_2HyperglycemiaChecks
  | Day_3HyperglycemiaChecks
  | InsulinOnHyperglycemia
  | SwallowingScreening
  | SwallowingScreeningType
  | SwallowingScreeningPerformer
  | Physiotherapy
  | OccupationalTherapy
  | SpeechTherapy
  | DischargeDestination
  | DischargeMedications
  | DischargeAnticoagulantsAfib
  | DischargeAnticoagulantTypeAfib
  | DischargeAntiplateletsNoAfib
  | DischargeAntiplateletTypeNoAfib
  | DischargeMrs
  | SmokingCessation
  | StrokeManagementAppointment
  | ThreeMonthMrs
  | HospitalStay
  | DischargeNihss
  | Dti
  | OnsetToDoor
  | DoorToIvAntihypertensiveInitiation
  | DoorToSysBpLt140
  | IvAntihypertensiveToSysBpLt140
  | IvAntihypertensive
  | AchievingSystolicPressureLt140
  | DoorToReversalInitiation
  | NoAnticoagulationReversalReason
  | NoIchTreatmentReason
  | DoorToEvacuation
deriving DecidableEq

def KPI.value : KPI → String
  | .AaDtnLe60 => "AA_DTN_LE60"
  | .AaDtnLe45 => "AA_DTN_LE45"
  | .AaDtgLe120 => "AA_DTG_LE120"
  | .AaDtgLe90 => "AA_DTG_LE90"
  | .AaRecanalization => "AA_RECANALIZATION"
  | .AaImaging => "AA_IMAGING"
  | .AaSwallowingScreening => "AA_SWALLOWING_SCREENING"
  | .AaAnticoagulants => "AA_ANTICOAGULANTS"
  | .AaAntithrombotics => "AA_ANTITHROMBOTICS"
  | .AaStrokeUnit => "AA_STROKE_UNIT"
  | .Age => "AGE"
  | .WakeupStroke => "WAKEUP_STROKE"
  | .InhospitalStroke => "INHOSPITAL_STROKE"
  | .ArrivalMode => "ARRIVAL_MODE"
  | .EmsPrenotification => "EMS_PRENOTIFICATION"
  | .AdmissionDepartment => "ADMISSION_DEPARTMENT"
  | .FirstContactPlace => "FIRST_CONTACT_PLACE"
  | .HospitalizedIn => "HOSPITALIZED_IN"
  | .Sex => "SEX"
  | .RiskFactorsType => "RISK_FACTORS_TYPE"
  | .BeforeOnsetMedication => "BEFORE_ONSET_MEDICATION"
  | .BeforeOnsetMedicationAisTia => "BEFORE_ONSET_MEDICATION_AIS_TIA"
  | .BeforeOnsetMedicationIch => "BEFORE_ONSET_MEDICATION_ICH"
  | .BeforeOnsetAntiplateletType => "BEFORE_ONSET_ANTIPLATELET_TYPE"
  | .BeforeOnsetAnticoagulantType => "BEFORE_ONSET_ANTICOAGULANT_TYPE"
  | .AdmissionNihss => "ADMISSION_NIHSS"
  | .PrestrokeMrs => "PRESTROKE_MRS"
  | .Glucose => "GLUCOSE"
  | .Cholesterol => "CHOLESTEROL"
  | .SystolicPressure => "SYSTOLIC_PRESSURE"
  | .DiastolicPressure => "DIASTOLIC_PRESSURE"
  | .InrMode => "INR_MODE"
  | .ImagingDone => "IMAGING_DONE"
  | .ImagingType => "IMAGING_TYPE"
  | .OcclusionFound => "OCCLUSION_FOUND"
  | .OcclusionSite => "OCCLUSION_SITE"
  | .OldInfarctsSeen => "OLD_INFARCTS_SEEN"
  | .OldInfarctsType => "OLD_INFARCTS_TYPE"
  | .PerfusionDeficitType => "PERFUSION_DEFICIT_TYPE"
  | .PerfusionCore => "PERFUSION_CORE"
  | .Hypoperfusion => "HYPOPERFUSION"
  | .StrokeType => "stroke subtype"
  | .StrokeMimicsDiagnosis => "STROKE_MIMICS_DIAGNOSIS"
  | .Thrombolysis => "THROMBOLYSIS"
  | .Thrombectomy => "THROMBECTOMY"
  | .ThrombolysisOnly => "THROMBOLYSIS_ONLY"
  | .ThrombolysisAndThrombectomy => "THROMBOLYSIS_AND_THROMBECTOMY"
  | .Recanalization => "RECANALIZATION"
  | .Dtn => "DTN"
  | .DtgPrimary => "DTG_PRIMARY"
  | .DtgSecondary => "DTG_SECONDARY"
  | .Dido => "DIDO"
  | .DoorToReperfusion => "DOOR_TO_REPERFUSION"
  | .MticiScore => "MTICI_SCORE"
  | .NoThrombolysisReason => "NO_THROMBOLYSIS_REASON"
  | .NoThrombectomyReason => "NO_THROMBECTOMY_REASON"
  | .MtComplicationsType => "MT_COMPLICATIONS_TYPE"
  | .MtComplications => "MT_COMPLICATIONS"
  | .ThrombolysisDrugs => "THROMBOLYSIS_DRUGS"
  | .ThrombolysisDrugDose => "THROMBOLYSIS_DRUG_DOSE"
  | .ThrombolysisApplicationDepartment => "THROMBOLYSIS_APPLICATION_DEPARTMENT"
  | .PostRecanalizationFindings => "POST_RECANALIZATION_FINDINGS"
  | .PostRecanalizationFindingType => "POST_RECANALIZATION_FINDING_TYPE"
  | .HemorrhagicTransformation => "HEMORRHAGIC_TRANSFORMATION"
  | .TiaClinicalSymptoms => "TIA_CLINICAL_SYMPTOMS"
  | .TiaSymptomsDuration => "TIA_SYMPTOMS_DURATION"
  | .BleedingSourceFound => "BLEEDING_SOURCE_FOUND"
  | .IchBleedingVolume => "ICH_BLEEDING_VOLUME"
  | .IchScore => "ICH_SCORE"
  | .IchTreatment => "ICH_TREATMENT"
  | .IchTreatmentType => "ICH_TREATMENT_TYPE"
  | .IchTreatmentTypeExtended => "ICH_TREATMENT_TYPE_EXTENDED"
  | .BleedingReasonFound => "BLEEDING_REASON_FOUND"
  | .BleedingReasonType => "BLEEDING_REASON_TYPE"
  | .BleedingAntidoteToAnticoagulants => "BLEEDING_ANTIDOTE_TO_ANTICOAGULANTS"
  | .AnticoagulantReversal => "ANTICOAGULANT_REVERSAL"
  | .AnticoagulantReversalGiven => "ANTICOAGULANT_REVERSAL_GIVEN"
  | .IntraventicularHemorrhage => "INTRAVENTICULAR_HEMORRHAGE"
  | .InfratentorialHemorrhage => "INFRATENTORIAL_HEMORRHAGE"
  | .SahTreatment => "SAH_TREATMENT"
  | .SahTreatmentType => "SAH_TREATMENT_TYPE"
  | .Nimodipine => "NIMODIPINE"
  | .HuntHessScore => "HUNT_HESS_SCORE"
  | .CvtTreatment => "CVT_TREATMENT"
  | .CvtTreatmentType => "CVT_TREATMENT_TYPE"
  | .PostAcuteCare => "POST_ACUTE_CARE"
  | .Craniectomy => "CRANIECTOMY"
  | .CraniectomyAgeGt60 => "CRANIECTOMY_AGE_GT60"
  | .CarotidArteriesImaging => "CAROTID_ARTERIES_IMAGING"
  | .CarotidStenosis => "CAROTID_STENOSIS"
  | .CarotidStenosisLevel => "CAROTID_STENOSIS_LEVEL"
  | .CarotidEndarterectomy => "CAROTID_ENDARTERECTOMY"
  | .CarotidEndarterectomyStenosisGt70 => "CAROTID_ENDARTERECTOMY_STENOSIS_GT70"
  | .AtrialFibrilationFlutter => "ATRIAL_FIBRILATION_FLUTTER"
  | .StrokeEtiologyKnownAis => "STROKE_ETIOLOGY_KNOWN_AIS"
  | .StrokeEtiologyTypeAis => "STROKE_ETIOLOGY_TYPE_AIS"
  | .StrokeEtiologyKnownAisTia => "STROKE_ETIOLOGY_KNOWN_AIS_TIA"
  | .StrokeEtiologyTypeAisTia => "STROKE_ETIOLOGY_TYPE_AIS_TIA"
  | .VteInterventionAis => "VTE_INTERVENTION_AIS"
  | .VteInterventionIch => "VTE_INTERVENTION_ICH"
  | .VteInterventionTypeAis => "VTE_INTERVENTION_TYPE_AIS"
  | .VteInterventionTypeIch => "VTE_INTERVENTION_TYPE_ICH"
  | .PostStrokeComplications => "POST_STROKE_COMPLICATIONS"
  | .PostStrokeComplicationsType => "POST_STROKE_COMPLICATIONS_TYPE"
  | .Day_1TemperatureChecks => "DAY_1_TEMPERATURE_CHECKS"
  | .Day_2TemperatureChecks => "DAY_2_TEMPERATURE_CHECKS"
  | .Day_3TemperatureChecks => "DAY_3_TEMPERATURE_CHECKS"
  | .ParacetamolOnFever => "PARACETAMOL_ON_FEVER"
  | .Day_1HyperglycemiaChecks => "DAY_1_HYPERGLYCEMIA_CHECKS"
  | .Day_2HyperglycemiaChecks => "DAY_2_HYPERGLYCEMIA_CHECKS"
  | .Day_3HyperglycemiaChecks => "DAY_3_HYPERGLYCEMIA_CHECKS"
  | .InsulinOnHyperglycemia => "INSULIN_ON_HYPERGLYCEMIA"
  | .SwallowingScreening => "SWALLOWING_SCREENING"
  | .SwallowingScreeningType => "SWALLOWING_SCREENING_TYPE"
  | .SwallowingScreeningPerformer => "SWALLOWING_SCREENING_PERFORMER"
  | .Physiotherapy => "PHYSIOTHERAPY"
  | .OccupationalTherapy => "OCCUPATIONAL_THERAPY"
  | .SpeechTherapy => "SPEECH_THERAPY"
  | .DischargeDestination => "DISCHARGE_DESTINATION"
  | .DischargeMedications => "DISCHARGE_MEDICATIONS"
  | .DischargeAnticoagulantsAfib => "DISCHARGE_ANTICOAGULANTS_AFIB"
  | .DischargeAnticoagulantTypeAfib => "DISCHARGE_ANTICOAGULANT_TYPE_AFIB"
  | .DischargeAntiplateletsNoAfib => "DISCHARGE_ANTIPLATELETS_NO_AFIB"
  | .DischargeAntiplateletTypeNoAfib => "DISCHARGE_ANTIPLATELET_TYPE_NO_AFIB"
  | .DischargeMrs => "DISCHARGE_MRS"
  | .SmokingCessation => "SMOKING_CESSATION"
  | .StrokeManagementAppointment => "STROKE_MANAGEMENT_APPOINTMENT"
  | .ThreeMonthMrs => "THREE_MONTH_MRS"
  | .HospitalStay => "HOSPITAL_STAY"
  | .DischargeNihss => "DISCHARGE_NIHSS"
  | .Dti => "DTI"
  | .OnsetToDoor => "ONSET_TO_DOOR"
  | .DoorToIvAntihypertensiveInitiation => "DOOR_TO_IV_ANTIHYPERTENSIVE_INITIATION"
  | .DoorToSysBpLt140 => "DOOR_TO_SYS_BP_LT140"
  | .IvAntihypertensiveToSysBpLt140 => "IV_ANTIHYPERTENSIVE_TO_SYS_BP_LT140"
  | .IvAntihypertensive => "IV_ANTIHYPERTENSIVE"
  | .AchievingSystolicPressureLt140 => "ACHIEVING_SYSTOLIC_PRESSURE_LT140"
  | .DoorToReversalInitiation => "DOOR_TO_REVERSAL_INITIATION"
  | .NoAnticoagulationReversalReason => "NO_ANTICOAGULATION_REVERSAL_REASON"
  | .NoIchTreatmentReason => "NO_ICH_TREATMENT_REASON"
  | .DoorToEvacuation => "DOOR_TO_EVACUATION"

def KPI.rawAliases : KPI → List String
  | .Age => ["patient age", "years", "age of patient"]
  | .AdmissionNihss => ["stroke severity", "nihss", "initial nihss", "admission score"]
  | .StrokeType => ["type of stroke", "stroke classification"]
  | .Dtn => ["door to needle", "door to needle time", "time to thrombolysis", "time until thrombolytic treatment", "time to iv tpa", "time to treatment", "treatment delay"]
  | .Dido => ["door in door out", "transfer delay", "time before transfer", "time spent before transfer", "time at initial hospital", "duration at referring hospital", "initial hospital stay time", "primary site delay", "door-to-door time"]
  | .Dti => ["door to imaging", "time to scan", "time to CT", "door-to-imaging time", "time until imaging", "time to first imaging", "time to initial scan", "initial CT timing"]
  | _ => []


def KPI.membersChunk0 : List KPI :=
  [.AaDtnLe60, .AaDtnLe45, .AaDtgLe120, .AaDtgLe90, .AaRecanalization, .AaImaging, .AaSwallowingScreening, .AaAnticoagulants, .AaAntithrombotics, .AaStrokeUnit, .Age, .WakeupStroke, .InhospitalStroke, .ArrivalMode, .EmsPrenotification, .AdmissionDepartment, .FirstContactPlace, .HospitalizedIn, .Sex, .RiskFactorsType, .BeforeOnsetMedication, .BeforeOnsetMedicationAisTia, .BeforeOnsetMedicationIch, .BeforeOnsetAntiplateletType, .BeforeOnsetAnticoagulantType, .AdmissionNihss, .PrestrokeMrs, .Glucose, .Cholesterol, .SystolicPressure, .DiastolicPressure, .InrMode, .ImagingDone, .ImagingType, .OcclusionFound]

def KPI.membersChunk1 : List KPI :=
  [.OcclusionSite, .OldInfarctsSeen, .OldInfarctsType, .PerfusionDeficitType, .PerfusionCore, .Hypoperfusion, .StrokeType, .StrokeMimicsDiagnosis, .Thrombolysis, .Thrombectomy, .ThrombolysisOnly, .ThrombolysisAndThrombectomy, .Recanalization, .Dtn, .DtgPrimary, .DtgSecondary, .Dido, .DoorToReperfusion, .MticiScore, .NoThrombolysisReason, .NoThrombectomyReason, .MtComplicationsType, .MtComplications, .ThrombolysisDrugs, .ThrombolysisDrugDose, .ThrombolysisApplicationDepartment, .PostRecanalizationFindings, .PostRecanalizationFindingType, .HemorrhagicTransformation, .TiaClinicalSymptoms, .TiaSymptomsDuration, .BleedingSourceFound, .IchBleedingVolume, .IchScore, .IchTreatment]

def KPI.membersChunk2 : List KPI :=
  [.IchTreatmentType, .IchTreatmentTypeExtended, .BleedingReasonFound, .BleedingReasonType, .BleedingAntidoteToAnticoagulants, .AnticoagulantReversal, .AnticoagulantReversalGiven, .IntraventicularHemorrhage, .InfratentorialHemorrhage, .SahTreatment, .SahTreatmentType, .Nimodipine, .HuntHessScore, .CvtTreatment, .CvtTreatmentType, .PostAcuteCare, .Craniectomy, .CraniectomyAgeGt60, .CarotidArteriesImaging, .CarotidStenosis, .CarotidStenosisLevel, .CarotidEndarterectomy, .CarotidEndarterectomyStenosisGt70, .AtrialFibrilationFlutter, .StrokeEtiologyKnownAis, .StrokeEtiologyTypeAis, .StrokeEtiologyKnownAisTia, .StrokeEtiologyTypeAisTia, .VteInterventionAis, .VteInterventionIch, .VteInterventionTypeAis, .VteInterventionTypeIch, .PostStrokeComplications, .PostStrokeComplicationsType, .Day_1TemperatureChecks]

def KPI.membersChunk3 : List KPI :=
  [.Day_2TemperatureChecks, .Day_3TemperatureChecks, .ParacetamolOnFever, .Day_1HyperglycemiaChecks, .Day_2HyperglycemiaChecks, .Day_3HyperglycemiaChecks, .InsulinOnHyperglycemia, .SwallowingScreening, .SwallowingScreeningType, .SwallowingScreeningPerformer, .Physiotherapy, .OccupationalTherapy, .SpeechTherapy, .DischargeDestination, .DischargeMedications, .DischargeAnticoagulantsAfib, .DischargeAnticoagulantTypeAfib, .DischargeAntiplateletsNoAfib, .DischargeAntiplateletTypeNoAfib, .DischargeMrs, .SmokingCessation, .StrokeManagementAppointment, .ThreeMonthMrs, .HospitalStay, .DischargeNihss, .Dti, .OnsetToDoor, .DoorToIvAntihypertensiveInitiation, .DoorToSysBpLt140, .IvAntihypertensiveToSysBpLt140, .IvAntihypertensive, .AchievingSystolicPressureLt140, .DoorToReversalInitiation, .NoAnticoagulationReversalReason, .NoIchTreatmentReason]

def KPI.membersChunk4 : List KPI :=
  [.DoorToEvacuation]

def KPI.members : List KPI :=
  KPI.membersChunk0 ++ KPI.membersChunk1 ++ KPI.membersChunk2 ++ KPI.membersChunk3 ++ KPI.membersChunk4

def KPI.fromValue? : String → Option KPI :=
  aliasResolve KPI.members KPI.value KPI.rawAliases


/- ===================== Filter AST ===================== -/

mutual
/-- The canonical filter AST: `LogicalFilter` together with the leaf models
`AgeFilter`, `NIHSSFilter`, `DateFilter`, `SexFilter`, `StrokeFilter` and
`BooleanFilter` (filter_models.py lines 19-170).  A `LogicalFilter` holds an
operator and a Python list of children, here `FilterList`; the pydantic model
imposes no constraint on the number of children. -/
inductive FilterNode where
  | logical (operator : OperatorProperty) (children : FilterList)
  | age (operator : ComparisonProperty) (value : Int)
  | nihss (operator : ComparisonProperty) (value : Int)
  | date (operator : ComparisonProperty) (value : String)
  | sex (value : SexProperty)
  | stroke (value : StrokeProperty)
  | boolean (property : BooleanProperty) (value : Bool)
deriving DecidableEq
/-- A Python list of `FilterNode` children. -/
inductive FilterList where
  | nil
  | cons (head : FilterNode) (tail : FilterList)
deriving DecidableEq
end

def FilterList.ofList : List FilterNode → FilterList
  | [] => .nil
  | f :: rest => .cons f (FilterList.ofList rest)

def FilterList.length : FilterList → Nat
  | .nil => 0
  | .cons _ t => 1 + FilterList.length t

def FilterList.isEmpty : FilterList → Bool
  | .nil => true
  | .cons _ _ => false

mutual
/-- Number of AST nodes (each `Logical` node and each leaf counts once). -/
def astCount : FilterNode → Nat
  | .logical _ children => 1 + astCountList children
  | _ => 1
def astCountList : FilterList → Nat
  | .nil => 0
  | .cons c rest => astCount c + astCountList rest
end

mutual
/-- The children invariant of §3 of the specification: every `Logical` node
has at least one child and `NOT` nodes have exactly one child. -/
def strictNodeOk : FilterNode → Bool
  | .logical op children =>
    (if op = .NOT then children.length = 1 else 1 ≤ children.length)
      && strictNodeOkList children
  | _ => true
def strictNodeOkList : FilterList → Bool
  | .nil => true
  | .cons c rest => strictNodeOk c && strictNodeOkList rest
end

mutual
/-- The part of the children invariant the parser actually guarantees:
every `Logical` node (of any operator) has at least one child. -/
def nodeOk : FilterNode → Bool
  | .logical _ children => !children.isEmpty && nodeOkList children
  | _ => true
def nodeOkList : FilterList → Bool
  | .nil => true
  | .cons c rest => nodeOk c && nodeOkList rest
end

/- ===================== Lexer ===================== -/

/-- A token `(kind, literal text)` as produced by `tokenize`
(cli_token_parser.py line 48). -/
abbrev Token : Type := String × String

/-- Match one of the reserved words `AND`, `OR`, `NOT` as a whole word: the
regex is `\b(?:AND|OR|NOT)\b`, so the character after the word (if any) must
not be a word character.  Returns the remaining characters. -/
def matchWord (w : String) (cs : List Char) : Option (List Char) :=
  if w.data.isPrefixOf cs then
    match cs.drop w.data.length with
    | [] => some []
    | d :: rest => if isWordChar d then none else some (d :: rest)
  else none

/-- The `OPERATOR` rule `\b(?:AND|OR|NOT)\b`: the `\b` before the word
requires the previous character of the input (if any) to be a non-word
character; alternatives are tried left to right. -/
def matchOperatorWord (prev : Option Char) (cs : List Char) : Option (String × List Char) :=
  if (match prev with | none => true | some pc => !isWordChar pc) then
    match matchWord "AND" cs with
    | some r => some ("AND", r)
    | none =>
      match matchWord "OR" cs with
      | some r => some ("OR", r)
      | none =>
        match matchWord "NOT" cs with
        | some r => some ("NOT", r)
        | none => none
  else none

/-- The `COMPARISON` rule `(==|!=|>=|<=|>|<)`: alternatives tried left to
right at the current position. -/
def matchComparison : List String → List Char → Option (String × List Char)
  | [], _ => none
  | s :: ss, cs =>
    if s.data.isPrefixOf cs then some (s, cs.drop s.data.length)
    else matchComparison ss cs

def comparisonSymbols : List String := ["==", "!=", ">=", "<=", ">", "<"]

/-- One step of `re.finditer` scanning (cli_token_parser.py lines 50-74):
at each position the token rules are tried in declaration order — `LPAREN`,
`RPAREN`, `COMMA`, `OPERATOR`, `COMPARISON`, `IDENT` (`[A-Z_]+`), `NUMBER`
(`\d+`), `STRING` (same pattern as `IDENT`, hence never reachable), `SKIP`
(whitespace, dropped).  A position where no rule matches is skipped silently
(`finditer` advances past it); the scanner never backtracks.  `prev` is the
character before the current position in the original input, used by the
`\b` boundaries.  Fuel is the number of remaining scan steps; each step
consumes at least one character, so fuel equal to the input length always
suffices. -/
def tokenizeAux : Nat → Option Char → List Char → List Token
  | 0, _, _ => []
  | _, _, [] => []
  | fuel+1, prev, c :: rest =>
    if c = '(' then ("LPAREN", "(") :: tokenizeAux fuel (some c) rest
    else if c = ')' then ("RPAREN", ")") :: tokenizeAux fuel (some c) rest
    else if c = ',' then ("COMMA", ",") :: tokenizeAux fuel (some c) rest
    else
      match matchOperatorWord prev (c :: rest) with
      | some (w, rest2) => ("OPERATOR", w) :: tokenizeAux fuel (some (w.data.getLastD c)) rest2
      | none =>
        match matchComparison comparisonSymbols (c :: rest) with
        | some (w, rest2) => ("COMPARISON", w) :: tokenizeAux fuel (some (w.data.getLastD c)) rest2
        | none =>
          if isIdentChar c then
            let run := (c :: rest).takeWhile isIdentChar
            ("IDENT", String.mk run) :: tokenizeAux fuel (some (run.getLastD c)) ((c :: rest).dropWhile isIdentChar)
          else if c.isDigit then
            let run := (c :: rest).takeWhile Char.isDigit
            ("NUMBER", String.mk run) :: tokenizeAux fuel (some (run.getLastD c)) ((c :: rest).dropWhile Char.isDigit)
          else
            tokenizeAux fuel (some c) rest

/-- `tokenize` (cli_token_parser.py lines 63-74). -/
def tokenize (s : String) : List Token := tokenizeAux s.data.length none s.data


/- ===================== Parser ===================== -/

instance {ε α : Type} [DecidableEq ε] [DecidableEq α] : DecidableEq (Except ε α) := fun a b =>
  match a, b with
  | .ok x, .ok y =>
    if h : x = y then isTrue (by rw [h]) else isFalse (fun hc => by cases hc; exact h rfl)
  | .error e, .error f =>
    if h : e = f then isTrue (by rw [h]) else isFalse (fun hc => by cases hc; exact h rfl)
  | .ok _, .error _ => isFalse (fun hc => by cases hc)
  | .error _, .ok _ => isFalse (fun hc => by cases hc)

/-- The exceptions the parser and compiler can raise: `SyntaxError` from
`FilterParser.consume`, `ValueError` from alias resolution / `int()` /
unknown identifiers, pydantic validation errors, and `TypeError` from a call
with the wrong number of positional arguments.  `fuel` is an artifact of the
embedding (the Python recursion is unbounded); no theorem below relies on
it, and the chosen fuel is large enough that it is never reached on the
concrete inputs evaluated. -/
inductive PyErr where
  | syntaxError (expected : String) (found : Token) (pos : Nat)
  | valueError (msg : String)
  | validationError (msg : String)
  | typeError (msg : String)
  | fuel
deriving DecidableEq

namespace FilterParser

/-- `FilterParser.peek` (cli_token_parser.py lines 82-83): the token at
`pos`, or `("EOF", "")` past the end. -/
def peek (toks : List Token) (pos : Nat) : Token := toks.getD pos ("EOF", "")

/-- `FilterParser.consume` (cli_token_parser.py lines 85-90): raises
`SyntaxError` when an expected kind does not match the next token; always
advances the position, even past the end of the stream. -/
def consume (toks : List Token) (pos : Nat) (expected : Option String) :
    Except PyErr (Token × Nat) :=
  let t := peek toks pos
  match expected with
  | some e => if t.1 = e then .ok (t, pos + 1) else .error (.syntaxError e t pos)
  | none => .ok (t, pos + 1)

/-- The dispatch chain of `FilterParser.condition` (cli_token_parser.py
lines 126-152), applied to the upper-cased identifier text, the resolved
comparison, the raw value text and the position after the value token:
`AGE` and `NIHSS` build integer leaves from `int(value)`; `DISCHARGEDATE`
builds a date leaf (whose pydantic pattern validates the value); otherwise
the value token is tried against the Sex then the Stroke alias family; then
the identifier against the Boolean alias family (the boolean value is the
comparison `value_str.lower() == "true"`); and finally `ValueError`. -/
def conditionDispatch (ident_str : String) (comparison : ComparisonProperty)
    (value_str : String) (p3 : Nat) : Except PyErr (FilterNode × Nat) :=
  if ident_str = "AGE" then
    match pyInt? value_str with
    | none => .error (.valueError ("invalid literal for int: " ++ value_str))
    | some v => .ok (.age comparison v, p3)
  else if ident_str = "NIHSS" then
    match pyInt? value_str with
    | none => .error (.valueError ("invalid literal for int: " ++ value_str))
    | some v => .ok (.nihss comparison v, p3)
  else if ident_str = "DISCHARGEDATE" then
    if isIsoDate value_str then .ok (.date comparison value_str, p3)
    else .error (.validationError ("String should match pattern for DateFilter value: " ++ value_str))
  else
    match SexProperty.fromValue? value_str with
    | some v => .ok (.sex v, p3)
    | none =>
      match StrokeProperty.fromValue? value_str with
      | some v => .ok (.stroke v, p3)
      | none =>
        match BooleanProperty.fromValue? ident_str with
        | some p => .ok (.boolean p (pyLower value_str = "true"), p3)
        | none => .error (.valueError ("Unknown identifier or unsupported filter: " ++ ident_str))

/-- `FilterParser.condition` (cli_token_parser.py lines 116-152): consume
`IDENT COMPARISON value`, resolve the comparison through the alias family
(its `ValueError` propagates), then dispatch on the upper-cased
identifier. -/
def condition (toks : List Token) (pos : Nat) : Except PyErr (FilterNode × Nat) :=
  match consume toks pos (some "IDENT") with
  | .error e => .error e
  | .ok (identTok, p1) =>
    match consume toks p1 (some "COMPARISON") with
    | .error e => .error e
    | .ok (compTok, p2) =>
      match ComparisonProperty.fromValue? compTok.2 with
      | none => .error (.valueError ("Invalid value " ++ compTok.2 ++ " for ComparisonProperty"))
      | some comparison =>
        match consume toks p2 none with
        | .error e => .error e
        | .ok (valueTok, p3) => conditionDispatch (pyUpper identTok.2) comparison valueTok.2 p3

/-- Selector for the four mutually recursive productions of the
recursive-descent parser (cli_token_parser.py lines 95-114). -/
inductive Prodn where
  | pfilter
  | plist
  | plistRest
  | pexpr
deriving DecidableEq

/-- Result of a production: `filter`/`expr` yield one node, `expr_list` and
its comma-separated continuation yield a list of nodes. -/
inductive Out where
  | one (f : FilterNode)
  | many (l : FilterList)
deriving DecidableEq

/-- The four productions `filter`, `expr_list` (split into its first element
and the `while COMMA` continuation), and `expr`, fused into one function
that is structurally recursive on fuel so that it evaluates by kernel
reduction.  The productions:
`filter := OPERATOR ( expr_list )` building
`LogicalFilter(OperatorProperty(op), children)` — the operator resolution
happens at the `LogicalFilter` construction on line 100, i.e. after the
closing parenthesis is consumed;
`expr_list := expr (, expr)*`;
`expr := filter | condition`, dispatching on whether the next token is an
`OPERATOR`.  The `.error .fuel` arms for a production returning the wrong
`Out` shape are unreachable. -/
def run : Nat → Prodn → List Token → Nat → Except PyErr (Out × Nat)
  | 0, _, _, _ => .error .fuel
  | fuel+1, k, toks, pos =>
    match k with
    | .pfilter =>
      match consume toks pos (some "OPERATOR") with
      | .error e => .error e
      | .ok (opTok, p1) =>
        match consume toks p1 (some "LPAREN") with
        | .error e => .error e
        | .ok (_, p2) =>
          match run fuel .plist toks p2 with
          | .error e => .error e
          | .ok (.one _, _) => .error .fuel
          | .ok (.many children, p3) =>
            match consume toks p3 (some "RPAREN") with
            | .error e => .error e
            | .ok (_, p4) =>
              match OperatorProperty.fromValue? opTok.2 with
              | none => .error (.valueError ("Invalid value " ++ opTok.2 ++ " for OperatorProperty"))
              | some op => .ok (.one (.logical op children), p4)
    | .plist =>
      match run fuel .pexpr toks pos with
      | .error e => .error e
      | .ok (.many _, _) => .error .fuel
      | .ok (.one e, p1) =>
        match run fuel .plistRest toks p1 with
        | .error e2 => .error e2
        | .ok (.one _, _) => .error .fuel
        | .ok (.many rest, p2) => .ok (.many (.cons e rest), p2)
    | .plistRest =>
      if (peek toks pos).1 = "COMMA" then
        match consume toks pos (some "COMMA") with
        | .error e => .error e
        | .ok (_, p1) =>
          match run fuel .pexpr toks p1 with
          | .error e => .error e
          | .ok (.many _, _) => .error .fuel
          | .ok (.one e, p2) =>
            match run fuel .plistRest toks p2 with
            | .error e2 => .error e2
            | .ok (.one _, _) => .error .fuel
            | .ok (.many rest, p3) => .ok (.many (.cons e rest), p3)
      else .ok (.many .nil, pos)
    | .pexpr =>
      if (peek toks pos).1 = "OPERATOR" then run fuel .pfilter toks pos
      else
        match condition toks pos with
        | .error e => .error e
        | .ok (f, p) => .ok (.one f, p)

/-- Fuel that always suffices: every chain of three production calls
consumes at least one token, and positions never exceed the token count by
more than one. -/
def enoughFuel (toks : List Token) : Nat := 3 * toks.length + 4

/-- `FilterParser.parse` (cli_token_parser.py lines 92-93): run the `filter`
production from position 0 (trailing tokens are ignored, as in the source). -/
def parse (toks : List Token) : Except PyErr FilterNode :=
  match run (enoughFuel toks) .pfilter toks 0 with
  | .error e => .error e
  | .ok (.one f, _) => .ok f
  | .ok (.many _, _) => .error .fuel

end FilterParser

/-- `parse_filter_string` (cli_token_parser.py lines 155-158). -/
def parse_filter_string (s : String) : Except PyErr FilterNode :=
  FilterParser.parse (tokenize s)



/- ===================== GraphQL filter builder ===================== -/

mutual
/-- Value of a `graphql_query.Argument` as used by the filter builders of
graphql_builder.py: a bare string (enum identifiers, operator names, quoted
date strings carry their quotes in the string itself), an integer, a
boolean, or a nested argument list. -/
inductive GBArgVal where
  | str (v : String)
  | int (v : Int)
  | bool (v : Bool)
  | nested (l : GBArgs)
deriving DecidableEq
/-- A list of named `graphql_query.Argument`s. -/
inductive GBArgs where
  | nil
  | cons (name : String) (value : GBArgVal) (tail : GBArgs)
deriving DecidableEq
end

mutual
/-- The filter object graph of graphql_builder.py: `FilterLeaf(filter_type,
args)` (lines 237-243) renders as exactly one `leaf: { ... }` object and
`LogicalNode(operator, children)` (lines 246-252) as exactly one
`node: { logicalOperator: ..., children: [...] }` object, children rendered
recursively.  Counting constructors of this tree therefore counts the
`leaf`/`node` objects of the emitted query text. -/
inductive GBFilter where
  | leaf (filterType : String) (args : GBArgs)
  | node (operator : String) (children : GBFilterList)
deriving DecidableEq
/-- A Python list of `GBFilter` children. -/
inductive GBFilterList where
  | nil
  | cons (head : GBFilter) (tail : GBFilterList)
deriving DecidableEq
end

mutual
/-- Number of `leaf`/`node` objects the filter renders to. -/
def gbCount : GBFilter → Nat
  | .leaf _ _ => 1
  | .node _ children => 1 + gbCountList children
def gbCountList : GBFilterList → Nat
  | .nil => 0
  | .cons c rest => gbCount c + gbCountList rest
end

/- The `Enum` classes of graphql_builder.py (lines 12-72), represented by
their value sets: the translator constructs them by value, e.g.
`GB.Operator("GE")`, which raises `ValueError` when the string is not a
member value (plain `Enum`, no `_missing_` aliasing here). -/

def GB_Operator_values : List String := ["GE", "LE", "LT", "GT", "EQ", "NE"]
def GB_SexProperty_values : List String := ["MALE", "FEMALE", "OTHER", "UNKNOWN"]
def GB_StrokeProperty_values : List String := ["ISCHEMIC", "INTRACEREBRAL_HEMORRHAGE", "TRANSIENT_ISCHEMIC", "SUBARACHNOID_HEMORRHAGE", "CEREBRAL_VENOUS_THROMBOSIS", "STROKE_MIMICS", "UNDETERMINED"]
def GB_BooleanProperty_values : List String := ["THROMBECTOMY", "THROMBOLYSIS", "BEFORE_ONSET_CILOSTAZOL", "BEFORE_ONSET_CLOPIDOGREL", "BEFORE_ONSET_TICAGRELOR", "BEFORE_ONSET_TICLOPIDINE", "BEFORE_ONSET_PRASUGREL", "BEFORE_ONSET_DIPYRIDAMOLE", "BEFORE_ONSET_OTHER_ANTIPLATELET", "BEFORE_ONSET_ANY_ANTIPLATELET", "BEFORE_ONSET_WARFARINS", "BEFORE_ONSET_DABIGATRAN", "BEFORE_ONSET_RIVAROXABAN", "BEFORE_ONSET_APIXABAN", "BEFORE_ONSET_EDOXABAN", "BEFORE_ONSET_OTHER_ANTICOAGULANT", "BEFORE_ONSET_ANY_ANTICOAGULANT", "BEFORE_ONSET_STATIN", "BEFORE_ONSET_HEPARIN", "BEFORE_ONSET_CONTRACEPTION"]
def GB_DateProperty_values : List String := ["DISCHARGE_DATE"]

/-- Plain `Enum` construction by value: `some` iff the string is a member
value, otherwise the `ValueError` of `Enum.__call__`. -/
def gbEnum? (values : List String) (s : String) : Option String :=
  if values.contains s then some s else none

/-- `IntegerFilter` (graphql_builder.py lines 267-275). -/
def GB_IntegerFilter (property : String) (operator : String) (value : Int) : GBFilter :=
  .leaf "integerCaseFilter"
    (.cons "property" (.str property)
      (.cons "operator" (.str operator)
        (.cons "value" (.int value) .nil)))

/-- `AgeFilter` (graphql_builder.py lines 278-279). -/
def GB_AgeFilter (operator : String) (value : Int) : GBFilter :=
  GB_IntegerFilter "AGE" operator value

/-- `NIHSSFilter` (graphql_builder.py lines 282-283). -/
def GB_NIHSSFilter (operator : String) (value : Int) : GBFilter :=
  GB_IntegerFilter "ADMISSION_NIHSS" operator value

/-- `EnumFilter` (graphql_builder.py lines 286-298). -/
def GB_EnumFilter (property : String) (value : String) (contains : Bool) : GBFilter :=
  .leaf "enumCaseFilter"
    (.cons property (.nested (.cons "values" (.str value) (.cons "contains" (.bool contains) .nil))) .nil)

/-- `SexFilter` (graphql_builder.py lines 301-302). -/
def GB_SexFilter (value : String) (contains : Bool) : GBFilter :=
  GB_EnumFilter "sexType" value contains

/-- `StrokeFilter` (graphql_builder.py lines 305-306). -/
def GB_StrokeFilter (value : String) (contains : Bool) : GBFilter :=
  GB_EnumFilter "strokeType" value contains

/-- `DateFilter` (graphql_builder.py lines 309-317): the date value is
emitted wrapped in double quotes. -/
def GB_DateFilter (property : String) (operator : String) (value : String) : GBFilter :=
  .leaf "dateCaseFilter"
    (.cons "property" (.str property)
      (.cons "operator" (.str operator)
        (.cons "value" (.str ("\"" ++ value ++ "\"")) .nil)))

/-- `BooleanFilter` (graphql_builder.py lines 324-331). -/
def GB_BooleanFilter (property : String) (value : Bool) : GBFilter :=
  .leaf "booleanCaseFilter"
    (.cons "property" (.str property) (.cons "value" (.bool value) .nil))

/-- The `type` tag of the pydantic `DateFilter` model
(filter_models.py line 89), which `LogicFilter_to_LogicalNode` passes to
`GB.DateProperty` (instructor_to_graphql.py line 66). -/
def IM_DateFilter_type : String := "DateFilter"

/-- The `match LogicalFilter.operator` at the end of
`LogicFilter_to_LogicalNode` (instructor_to_graphql.py lines 74-80): the
operator selects `GB.AND(*new_children)` / `GB.OR(*new_children)` /
`GB.NOT(*new_children)`; `GB.NOT` is declared with exactly one positional
parameter (graphql_builder.py line 263), so unpacking a list whose length is
not 1 raises `TypeError`. -/
def mkLogicalNode (operator : OperatorProperty) (newChildren : GBFilterList) :
    Except PyErr (Option GBFilter) :=
  match operator with
  | .AND => .ok (some (.node "AND" newChildren))
  | .OR => .ok (some (.node "OR" newChildren))
  | .NOT =>
    match newChildren with
    | .cons c .nil => .ok (some (.node "NOT" (.cons c .nil)))
    | _ => .error (.typeError "NOT takes 1 positional argument")

/-- The `for child in LogicalFilter.children` loop of
`LogicFilter_to_LogicalNode` (instructor_to_graphql.py lines 40-72).  For a
nested `LogicalFilter` child the source calls itself recursively
(the recursive body is written inline here so that the recursion is
structural) but does not append the result (line 44), so only exceptions of
the recursive call survive; each leaf child is converted through the
corresponding graphql_builder constructor, with the enum arguments
constructed by value (the argument of `GB.DateProperty` is `child.type`,
the literal tag `"DateFilter"`, line 66, and the second argument of
`GB.BooleanFilter` is the literal `True`, line 72). -/
def convertChildren : FilterList → Except PyErr GBFilterList
  | .nil => .ok .nil
  | .cons c rest =>
    match c with
    | .logical subOp subCh =>
      let recurResult : Except PyErr (Option GBFilter) :=
        if subCh.isEmpty then .ok none
        else
          match convertChildren subCh with
          | .error e => .error e
          | .ok ncs => mkLogicalNode subOp ncs
      match recurResult with
      | .error e => .error e
      | .ok _ => convertChildren rest
    | .age o v =>
      match gbEnum? GB_Operator_values (ComparisonProperty.value o) with
      | none => .error (.valueError ((ComparisonProperty.value o) ++ " is not a valid Operator"))
      | some ov =>
        match convertChildren rest with
        | .error e => .error e
        | .ok tl => .ok (.cons (GB_AgeFilter ov v) tl)
    | .nihss o v =>
      match gbEnum? GB_Operator_values (ComparisonProperty.value o) with
      | none => .error (.valueError ((ComparisonProperty.value o) ++ " is not a valid Operator"))
      | some ov =>
        match convertChildren rest with
        | .error e => .error e
        | .ok tl => .ok (.cons (GB_NIHSSFilter ov v) tl)
    | .sex v =>
      match gbEnum? GB_SexProperty_values (SexProperty.value v) with
      | none => .error (.valueError ((SexProperty.value v) ++ " is not a valid SexProperty"))
      | some sv =>
        match convertChildren rest with
        | .error e => .error e
        | .ok tl => .ok (.cons (GB_SexFilter sv true) tl)
    | .stroke v =>
      match gbEnum? GB_StrokeProperty_values (StrokeProperty.value v) with
      | none => .error (.valueError ((StrokeProperty.value v) ++ " is not a valid StrokeProperty"))
      | some sv =>
        match convertChildren rest with
        | .error e => .error e
        | .ok tl => .ok (.cons (GB_StrokeFilter sv true) tl)
    | .date o v =>
      match gbEnum? GB_DateProperty_values IM_DateFilter_type with
      | none => .error (.valueError (IM_DateFilter_type ++ " is not a valid DateProperty"))
      | some dp =>
        match gbEnum? GB_Operator_values (ComparisonProperty.value o) with
        | none => .error (.valueError ((ComparisonProperty.value o) ++ " is not a valid Operator"))
        | some ov =>
          match convertChildren rest with
          | .error e => .error e
          | .ok tl => .ok (.cons (GB_DateFilter dp ov v) tl)
    | .boolean p _ =>
      match gbEnum? GB_BooleanProperty_values (BooleanProperty.value p) with
      | none => .error (.valueError ((BooleanProperty.value p) ++ " is not a valid BooleanProperty"))
      | some pv =>
        match convertChildren rest with
        | .error e => .error e
        | .ok tl => .ok (.cons (GB_BooleanFilter pv true) tl)

/-- `LogicFilter_to_LogicalNode` (instructor_to_graphql.py lines 35-80),
taking the `operator` and `children` fields of the `LogicalFilter` argument.
An empty child list returns `None` with a warning (lines 36-38); otherwise
the children are converted in order by `convertChildren` and the node is
assembled by `mkLogicalNode`. -/
def LogicFilter_to_LogicalNode (operator : OperatorProperty) (children : FilterList) :
    Except PyErr (Option GBFilter) :=
  if children.isEmpty then .ok none
  else
    match convertChildren children with
    | .error e => .error e
    | .ok newChildren => mkLogicalNode operator newChildren


/- ===================== Metric models ===================== -/

/-- The `Distribution` pydantic model (metric_models.py lines 159-182):
`bin_count`, `lower`, `upper` integers. -/
structure Distribution where
  bin_count : Int
  lower : Int
  upper : Int
deriving DecidableEq

/-- Construction of a `Distribution`, running the `check_bounds` model
validator (metric_models.py lines 176-182): `lower >= upper` fails first,
then `bin_count <= 0`; a valid construction stores the given values
unchanged (no clamping). -/
def Distribution.make (bin_count lower upper : Int) : Except String Distribution :=
  if lower ≥ upper then
    .error "Lower bound must be a integer less than upper bound"
  else if bin_count ≤ 0 then
    .error "Bin count must be a integer greater than 0 (e.g., 10 or 25)"
  else
    .ok ⟨bin_count, lower, upper⟩

/-- The `Metric` pydantic model (metric_models.py lines 185-207). -/
structure Metric where
  kpi : KPI
  stats : Bool
  distribution : Option Distribution
deriving DecidableEq

/-- Lookup in the Python dict `dist_map` (`dict.get`, first match wins; the
dict is represented as an association list onto which later insertions are
consed, so that a later insertion with the same key shadows the earlier
entry, as the dict overwrite does). -/
def dictGet (l : List (String × Distribution)) (key : String) : Option Distribution :=
  match l.find? (fun p => p.1 == key) with
  | some p => some p.2
  | none => none

/-- The distribution-parsing loop of `parse_metrics` (cli_token_parser.py
lines 175-185): each spec string is split on `":"` into exactly four fields
`KPI:bins:lower:upper`; a wrong field count, a non-integer numeric field or
a `Distribution` validator failure is caught and re-raised as the
`Invalid distribution spec` `ValueError`.  The map is keyed by the
upper-cased raw KPI text (`dist_map[kpi_str.upper()]`, line 179). -/
def buildDistMap : List String → List (String × Distribution) →
    Except PyErr (List (String × Distribution))
  | [], acc => .ok acc
  | spec :: rest, acc =>
    match pySplit ':' spec with
    | [kpi_str, b, l, u] =>
      match pyInt? b, pyInt? l, pyInt? u with
      | some bi, some li, some ui =>
        match Distribution.make bi li ui with
        | .ok d => buildDistMap rest ((pyUpper kpi_str, d) :: acc)
        | .error _ => .error (.valueError ("Invalid distribution spec " ++ spec))
      | _, _, _ => .error (.valueError ("Invalid distribution spec " ++ spec))
    | _ => .error (.valueError ("Invalid distribution spec " ++ spec))

/-- The metric-building loop of `parse_metrics` (cli_token_parser.py lines
187-196): each name is resolved through the KPI alias family (unknown names
raise), and the metric receives `dist_map.get(kpi.value)`, i.e. the lookup
key is the canonical KPI value, not the raw metric name. -/
def metricsLoop : List String → List (String × Distribution) → Bool →
    Except PyErr (List Metric)
  | [], _, _ => .ok []
  | name :: rest, dm, stats =>
    match KPI.fromValue? name with
    | none => .error (.valueError ("Unknown KPI/metric " ++ name))
    | some kpi =>
      match metricsLoop rest dm stats with
      | .error e => .error e
      | .ok ms => .ok (⟨kpi, stats, dictGet dm (KPI.value kpi)⟩ :: ms)

/-- `parse_metrics` (cli_token_parser.py lines 173-196). -/
def parse_metrics (metrics : List String) (distribution : List String) (stats : Bool) :
    Except PyErr (List Metric) :=
  match buildDistMap distribution [] with
  | .error e => .error e
  | .ok dist_map => metricsLoop metrics dist_map stats


/- ===================== Entity-list adapter ===================== -/

/-- A Rasa entity record `{entity, value, role}` as consumed by
`EntityToInstructorTranslator` (EntityToInstructorTranslator.py line 140):
`value` and `role` may be absent. -/
structure Entity where
  entity : String
  value : Option String
  role : Option String
deriving DecidableEq

/-- The grouped-entity dictionary built by `_organize_entities`
(EntityToInstructorTranslator.py lines 140-179).  The `age_range`,
`date_range` and `nihss_range` dicts are association lists with
later-insertion-shadows-earlier lookup, mirroring dict overwrite. -/
structure Organized where
  kpis : List String
  sex_filters : List String
  stroke_types : List String
  boolean_filters : List String
  chart_type : Option String
  group_by : Option String
  age_range : List (String × Int)
  date_range : List (String × String)
  nihss_range : List (String × Int)
deriving DecidableEq

def Organized.empty : Organized := ⟨[], [], [], [], none, none, [], [], []⟩

/-- Lookup in an integer range dict (`"lower" in age_range` /
`age_range["lower"]`). -/
def rangeGet (l : List (String × Int)) (key : String) : Option Int :=
  match l.find? (fun p => p.1 == key) with
  | some p => some p.2
  | none => none

/-- Lookup in a date range dict. -/
def dateRangeGet (l : List (String × String)) (key : String) : Option String :=
  match l.find? (fun p => p.1 == key) with
  | some p => some p.2
  | none => none

/-- One iteration of the entity loop of `_organize_entities`
(EntityToInstructorTranslator.py lines 154-177): entities with a `None`
value are skipped; list-valued groups append, scalar groups overwrite, and
the range groups require a truthy role and convert the value with `int()`
(whose `ValueError` propagates out of the loop). -/
def organizeStep (org : Organized) (e : Entity) : Except PyErr Organized :=
  match e.value with
  | none => .ok org
  | some v =>
    if e.entity = "kpi" then .ok { org with kpis := org.kpis ++ [v] }
    else if e.entity = "sex" then .ok { org with sex_filters := org.sex_filters ++ [v] }
    else if e.entity = "stroke_type" then .ok { org with stroke_types := org.stroke_types ++ [v] }
    else if e.entity = "boolean_type" then .ok { org with boolean_filters := org.boolean_filters ++ [v] }
    else if e.entity = "chart_type" then .ok { org with chart_type := some v }
    else if e.entity = "group_by" then .ok { org with group_by := some v }
    else if e.entity = "age" then
      match e.role with
      | some r =>
        if r ≠ "" then
          match pyInt? v with
          | some n => .ok { org with age_range := (r, n) :: org.age_range }
          | none => .error (.valueError ("invalid literal for int: " ++ v))
        else .ok org
      | none => .ok org
    else if e.entity = "date" then
      match e.role with
      | some r => if r ≠ "" then .ok { org with date_range := (r, v) :: org.date_range } else .ok org
      | none => .ok org
    else if e.entity = "nihss" then
      match e.role with
      | some r =>
        if r ≠ "" then
          match pyInt? v with
          | some n => .ok { org with nihss_range := (r, n) :: org.nihss_range }
          | none => .error (.valueError ("invalid literal for int: " ++ v))
        else .ok org
      | none => .ok org
    else .ok org

/-- `_organize_entities` (EntityToInstructorTranslator.py lines 140-179). -/
def organizeEntities : List Entity → Organized → Except PyErr Organized
  | [], org => .ok org
  | e :: rest, org =>
    match organizeStep org e with
    | .error err => .error err
    | .ok org2 => organizeEntities rest org2

/-- `_organize_entities` from the empty dictionary. -/
def organize_entities (entities : List Entity) : Except PyErr Organized :=
  organizeEntities entities Organized.empty

/-- The sex-filter block of `_build_filters` (EntityToInstructorTranslator.py
lines 206-221): resolve each collected value through the Sex alias family,
dropping unresolvable values with a warning. -/
def resolveSexFilters : List String → List FilterNode
  | [] => []
  | s :: rest =>
    match SexProperty.fromValue? s with
    | some p => .sex p :: resolveSexFilters rest
    | none => resolveSexFilters rest

/-- The stroke-type block resolution (EntityToInstructorTranslator.py lines
224-232), dropping unresolvable values with a warning. -/
def resolveStrokeFilters : List String → List FilterNode
  | [] => []
  | s :: rest =>
    match StrokeProperty.fromValue? s with
    | some p => .stroke p :: resolveStrokeFilters rest
    | none => resolveStrokeFilters rest

/-- The boolean-filter block (EntityToInstructorTranslator.py lines
246-258): every resolvable boolean property becomes
`BooleanFilter(property, value=True)` (presence means `True`); unresolvable
values are dropped with a warning. -/
def resolveBooleanFilters : List String → List FilterNode
  | [] => []
  | s :: rest =>
    match BooleanProperty.fromValue? s with
    | some p => .boolean p true :: resolveBooleanFilters rest
    | none => resolveBooleanFilters rest

/-- Group a list of same-type categorical leaves as `_build_filters` does
for sex and for non-excluded stroke types (lines 217-221 and 240-244): an
empty resolution contributes nothing, a single leaf passes through
unwrapped, two or more are combined under one `OR` node. -/
def groupCategorical (leaves : List FilterNode) : List FilterNode :=
  match leaves with
  | [] => []
  | [single] => [single]
  | _ => [.logical .OR (.ofList leaves)]

/-- Wrap each stroke leaf individually in `NOT` (the exclusion branch,
EntityToInstructorTranslator.py lines 235-238). -/
def wrapEachNot : List FilterNode → List FilterNode
  | [] => []
  | f :: rest => .logical .NOT (.cons f .nil) :: wrapEachNot rest

/-- The date-range block (EntityToInstructorTranslator.py lines 199-204):
`DateFilter` construction runs the pydantic date pattern, whose validation
error propagates. -/
def dateRangeFilters (dr : List (String × String)) : Except PyErr (List FilterNode) :=
  match dateRangeGet dr "lower" with
  | some v =>
    if isIsoDate v then
      match dateRangeGet dr "upper" with
      | some u =>
        if isIsoDate u then
          .ok [.date .GreaterOrEqual v, .date .LessOrEqual u]
        else .error (.validationError ("String should match pattern for DateFilter value: " ++ u))
      | none => .ok [.date .GreaterOrEqual v]
    else .error (.validationError ("String should match pattern for DateFilter value: " ++ v))
  | none =>
    match dateRangeGet dr "upper" with
    | some u =>
      if isIsoDate u then .ok [.date .LessOrEqual u]
      else .error (.validationError ("String should match pattern for DateFilter value: " ++ u))
    | none => .ok []

/-- The integer range blocks for age and NIHSS
(EntityToInstructorTranslator.py lines 185-197): the role `"lower"` becomes
a `GreaterOrEqual` leaf and `"upper"` a `LessOrEqual` leaf, appended in that
order. -/
def intRangeFilters (mk : ComparisonProperty → Int → FilterNode)
    (range : List (String × Int)) : List FilterNode :=
  (match rangeGet range "lower" with
   | some n => [mk .GreaterOrEqual n]
   | none => []) ++
  (match rangeGet range "upper" with
   | some n => [mk .LessOrEqual n]
   | none => [])

/-- `_build_filters` (EntityToInstructorTranslator.py lines 181-266): the
collected leaves, in source order (age, NIHSS, date, sex, stroke, boolean);
an empty collection yields no filter, anything else — including a single
leaf — is wrapped in a top-level `AND` (both final branches construct the
same `AND`, lines 263-266). -/
def buildFilters (org : Organized) (is_exclusion : Bool) : Except PyErr (Option FilterNode) :=
  match dateRangeFilters org.date_range with
  | .error e => .error e
  | .ok dateFs =>
    let ageFs := intRangeFilters (fun c v => .age c v) org.age_range
    let nihssFs := intRangeFilters (fun c v => .nihss c v) org.nihss_range
    let sexFs := groupCategorical (resolveSexFilters org.sex_filters)
    let strokeResolved := resolveStrokeFilters org.stroke_types
    let strokeFs :=
      if is_exclusion then wrapEachNot strokeResolved
      else groupCategorical strokeResolved
    let boolFs := resolveBooleanFilters org.boolean_filters
    let filters := ageFs ++ nihssFs ++ dateFs ++ sexFs ++ strokeFs ++ boolFs
    match filters with
    | [] => .ok none
    | _ => .ok (some (.logical .AND (.ofList filters)))

/-- The filter path of `EntityToInstructorTranslator.translate`
(EntityToInstructorTranslator.py lines 119-129): organize the entities,
then build the filter response. -/
def entitiesToFilter (entities : List Entity) (is_exclusion : Bool) :
    Except PyErr (Option FilterNode) :=
  match organize_entities entities with
  | .error e => .error e
  | .ok org => buildFilters org is_exclusion


/- ===================== Parser invariant lemmas ===================== -/

theorem nodeOk_logical (op : OperatorProperty) (l : FilterList)
    (h1 : nodeOkList l = true) (h2 : l ≠ .nil) : nodeOk (.logical op l) = true := by
  cases l with
  | nil => exact absurd rfl h2
  | cons c rest => simp_all [nodeOk, nodeOkList, FilterList.isEmpty]

theorem conditionDispatch_nodeOk {i : String} {c : ComparisonProperty} {v : String}
    {q : Nat} {f : FilterNode} {p : Nat}
    (h : FilterParser.conditionDispatch i c v q = .ok (f, p)) : nodeOk f = true := by
  unfold FilterParser.conditionDispatch at h
  repeat' split at h
  all_goals
    first
    | exact Except.noConfusion h
    | (injection h with h1
       injection h1 with hf hp
       subst hf
       rfl)

theorem condition_nodeOk {toks : List Token} {pos : Nat} {f : FilterNode} {p : Nat}
    (h : FilterParser.condition toks pos = .ok (f, p)) : nodeOk f = true := by
  unfold FilterParser.condition at h
  split at h
  · exact Except.noConfusion h
  · split at h
    · exact Except.noConfusion h
    · split at h
      · exact Except.noConfusion h
      · split at h
        · exact Except.noConfusion h
        · exact conditionDispatch_nodeOk h

/-- What each production guarantees about its output: `filter` and `expr`
yield a node all of whose `Logical` descendants have at least one child;
`expr_list` yields a non-empty list of such nodes; the comma continuation
yields a (possibly empty) list of such nodes. -/
def runInv : FilterParser.Prodn → FilterParser.Out → Prop
  | .pfilter, .one f => nodeOk f = true
  | .plist, .many l => nodeOkList l = true ∧ l ≠ .nil
  | .plistRest, .many l => nodeOkList l = true
  | .pexpr, .one f => nodeOk f = true
  | _, _ => False

theorem run_sound (fuel : Nat) :
    ∀ (k : FilterParser.Prodn) (toks : List Token) (pos : Nat)
      (out : FilterParser.Out) (p : Nat),
      FilterParser.run fuel k toks pos = .ok (out, p) → runInv k out := by
  induction fuel with
  | zero =>
    intro k toks pos out p h
    exact Except.noConfusion h
  | succ n ih =>
    intro k toks pos out p h
    cases k with
    | pfilter =>
      simp only [FilterParser.run] at h
      split at h
      · exact Except.noConfusion h
      · split at h
        · exact Except.noConfusion h
        · split at h
          · exact Except.noConfusion h
          · exact Except.noConfusion h
          · rename_i children p3 heq
            split at h
            · exact Except.noConfusion h
            · split at h
              · exact Except.noConfusion h
              · injection h with h1
                injection h1 with hf hp
                subst hf
                have hinv := ih .plist _ _ _ _ heq
                exact nodeOk_logical _ children hinv.1 hinv.2
    | plist =>
      simp only [FilterParser.run] at h
      split at h
      · exact Except.noConfusion h
      · exact Except.noConfusion h
      · rename_i e p1 heq1
        split at h
        · exact Except.noConfusion h
        · exact Except.noConfusion h
        · rename_i rest p2 heq2
          injection h with h1
          injection h1 with hf hp
          subst hf
          have h1 := ih .pexpr _ _ _ _ heq1
          have h2 := ih .plistRest _ _ _ _ heq2
          refine ⟨?_, by simp⟩
          simp_all [runInv, nodeOkList]
    | plistRest =>
      simp only [FilterParser.run] at h
      split at h
      · split at h
        · exact Except.noConfusion h
        · split at h
          · exact Except.noConfusion h
          · exact Except.noConfusion h
          · rename_i e p1 heq1
            split at h
            · exact Except.noConfusion h
            · exact Except.noConfusion h
            · rename_i rest p2 heq2
              injection h with h1
              injection h1 with hf hp
              subst hf
              have h1 := ih .pexpr _ _ _ _ heq1
              have h2 := ih .plistRest _ _ _ _ heq2
              simp_all [runInv, nodeOkList]
      · injection h with h1
        injection h1 with hf hp
        subst hf
        rfl
    | pexpr =>
      simp only [FilterParser.run] at h
      split at h
      · have hinv := ih .pfilter _ _ _ _ h
        cases out with
        | one f => exact hinv
        | many l => exact hinv.elim
      · split at h
        · exact Except.noConfusion h
        · rename_i f' p' heq
          injection h with h1
          injection h1 with hf hp
          subst hf
          exact condition_nodeOk heq

/- ===================== Claims ===================== -/

/-- Claim C1 (code bug): the count invariant fails.  The syntactically valid
string `AND(NOT(NIHSS>3),AGE>50)` parses to an AST with 4 nodes, but
compiling it emits only 2 `leaf`/`node` objects: the nested `Logical` child
contributes zero node objects, because `LogicFilter_to_LogicalNode`
discards the result of its recursive call (instructor_to_graphql.py line
44).  Moreover, the claim that compilation never raises also fails on a
parser-produced AST: `AND(NOT(AGE>50,AGE<60))` parses, and compiling it
raises `TypeError` because the dropped-and-also-miscalled
`GB.NOT(*new_children)` receives two positional arguments. -/
theorem claim_C1_nested_logical_node_dropped :
    parse_filter_string "AND(NOT(NIHSS>3),AGE>50)" =
      .ok (.logical .AND (.cons (.logical .NOT (.cons (.nihss .GreaterThan 3) .nil))
        (.cons (.age .GreaterThan 50) .nil))) ∧
    astCount (.logical .AND (.cons (.logical .NOT (.cons (.nihss .GreaterThan 3) .nil))
        (.cons (.age .GreaterThan 50) .nil))) = 4 ∧
    LogicFilter_to_LogicalNode .AND (.cons (.logical .NOT (.cons (.nihss .GreaterThan 3) .nil))
        (.cons (.age .GreaterThan 50) .nil)) =
      .ok (some (.node "AND" (.cons (GB_AgeFilter "GT" 50) .nil))) ∧
    gbCount (.node "AND" (.cons (GB_AgeFilter "GT" 50) .nil)) = 2 ∧
    parse_filter_string "AND(NOT(AGE>50,AGE<60))" =
      .ok (.logical .AND (.cons (.logical .NOT (.cons (.age .GreaterThan 50)
        (.cons (.age .LessThan 60) .nil))) .nil)) ∧
    LogicFilter_to_LogicalNode .AND (.cons (.logical .NOT (.cons (.age .GreaterThan 50)
        (.cons (.age .LessThan 60) .nil))) .nil) =
      .error (.typeError "NOT takes 1 positional argument") := by
  refine ⟨by decide, by decide, by decide, by decide, by decide, by decide⟩

/-- Claim C2 (code bug): compilation is not total over well-typed ASTs.  The
well-typed AST `AND(DateLeaf(GE, "2023-01-01"))` (the date value matches the
pydantic pattern) does not compile to a `dateCaseFilter` object; it raises
`ValueError`, because `LogicFilter_to_LogicalNode` constructs
`GB.DateProperty(child.type)` from the model tag `"DateFilter"`
(instructor_to_graphql.py line 66), which is not a `DateProperty` member
value. -/
theorem claim_C2_dateleaf_compilation_raises :
    isIsoDate "2023-01-01" = true ∧
    LogicFilter_to_LogicalNode .AND (.cons (.date .GreaterOrEqual "2023-01-01") .nil) =
      .error (.valueError "DateFilter is not a valid DateProperty") := by
  refine ⟨by decide, by decide⟩

/-- Claim C3 (code bug): a `BooleanLeaf` with value `false` compiles to a
`booleanCaseFilter` carrying `true`, not the leaf value: the translator
passes the literal `True` as the value argument of `GB.BooleanFilter`
(instructor_to_graphql.py line 72).  A `true` leaf happens to compile to
`true`, so the emitted value is constant. -/
theorem claim_C3_boolean_value_hardcoded_true :
    LogicFilter_to_LogicalNode .AND (.cons (.boolean .Thrombectomy false) .nil) =
      .ok (some (.node "AND" (.cons (GB_BooleanFilter "THROMBECTOMY" true) .nil))) ∧
    LogicFilter_to_LogicalNode .AND (.cons (.boolean .Thrombectomy true) .nil) =
      .ok (some (.node "AND" (.cons (GB_BooleanFilter "THROMBECTOMY" true) .nil))) := by
  refine ⟨by decide, by decide⟩

/-- Claim C4 (code bug): resolving `"at least"`, `"=>"` and `"no less than"`
against the Comparison alias family yields `GE`, but `">="` fails to
resolve: the `GreaterOrEqual` alias tuple (filter_models.py line 11)
contains `"=>"` and `"≥"` but not `">="`, and `">="` is no member value of
any comparison either, so `ComparisonProperty(">=")` raises `ValueError` —
contradicting the model field documentation, which lists `">="` among the
accepted aliases and examples. -/
theorem claim_C4_ge_alias_resolution :
    ComparisonProperty.fromValue? "at least" = some .GreaterOrEqual ∧
    ComparisonProperty.fromValue? "=>" = some .GreaterOrEqual ∧
    ComparisonProperty.fromValue? "no less than" = some .GreaterOrEqual ∧
    ComparisonProperty.fromValue? ">=" = none := by
  refine ⟨by decide, by decide, by decide, by decide⟩

/-- Claim C5 (code bug): parsing `AGE>=50` as a condition does not yield
`AgeLeaf(GE, 50)`.  The lexer produces `IDENT AGE`, `COMPARISON >=`,
`NUMBER 50`, but `FilterParser.condition` resolves the comparison before any
identifier dispatch, and `ComparisonProperty.from_value(">=")` raises
`ValueError` (see C4), so the parse fails before the `AGE` branch is ever
reached — contradicting the parser module usage example
`AND(AGE>=50, SEX==MALE)` (cli_token_parser.py line 245). -/
theorem claim_C5_age_ge_50_condition_raises :
    tokenize "AGE>=50" = [("IDENT", "AGE"), ("COMPARISON", ">="), ("NUMBER", "50")] ∧
    FilterParser.condition (tokenize "AGE>=50") 0 =
      .error (.valueError "Invalid value >= for ComparisonProperty") := by
  refine ⟨by decide, by decide⟩

/-- Claim C6 counterexample: the parser accepts `NOT` with two children.
`NOT(AGE>50,AGE<60)` parses to a `NOT` node with 2 children, violating the
claimed children invariant (`NOT` has exactly 1 child); neither the filter
production (cli_token_parser.py lines 95-100) nor the `LogicalFilter`
pydantic model restricts the child count of `NOT`. -/
theorem claim_C6_counterexample_not_two_children :
    parse_filter_string "NOT(AGE>50,AGE<60)" =
      .ok (.logical .NOT (.cons (.age .GreaterThan 50) (.cons (.age .LessThan 60) .nil))) ∧
    strictNodeOk (.logical .NOT (.cons (.age .GreaterThan 50)
      (.cons (.age .LessThan 60) .nil))) = false := by
  refine ⟨by decide, by decide⟩

/-- Claim C6 (amended): every Logical node produced by the parser has at
least one child — `AND`, `OR` and `NOT` alike — because `expr_list` always
parses at least one `expr`; the parser does not restrict `NOT` nodes to a
single child. -/
theorem claim_C6_amended_parser_children_nonempty (s : String) (f : FilterNode)
    (h : parse_filter_string s = .ok f) : nodeOk f = true := by
  unfold parse_filter_string FilterParser.parse at h
  split at h
  · exact Except.noConfusion h
  · rename_i f' p heq
    injection h with h1
    subst h1
    exact run_sound _ _ _ _ _ _ heq
  · exact Except.noConfusion h

/-- Witness for the amended claim C6 at the concrete input `AND(AGE>50)`. -/
theorem claim_C6_amended_parser_children_nonempty_witness :
    nodeOk (.logical .AND (.cons (.age .GreaterThan 50) .nil)) = true :=
  claim_C6_amended_parser_children_nonempty "AND(AGE>50)"
    (.logical .AND (.cons (.age .GreaterThan 50) .nil)) (by decide)

/-- Claim C7 (confirmed): the entity list
`[{age, "40", lower}, {age, "60", upper}]` translates to
`Logical(AND, [AgeLeaf(GE,40), AgeLeaf(LE,60)])`: the role `lower` becomes a
`GE` comparison, `upper` becomes `LE`, and the two leaves are combined under
a top-level `AND` — regardless of the exclusion context, which only affects
stroke-type entities. -/
theorem claim_C7_age_range_adapter :
    entitiesToFilter [⟨"age", some "40", some "lower"⟩, ⟨"age", some "60", some "upper"⟩] false =
      .ok (some (.logical .AND (.cons (.age .GreaterOrEqual 40)
        (.cons (.age .LessOrEqual 60) .nil)))) ∧
    entitiesToFilter [⟨"age", some "40", some "lower"⟩, ⟨"age", some "60", some "upper"⟩] true =
      .ok (some (.logical .AND (.cons (.age .GreaterOrEqual 40)
        (.cons (.age .LessOrEqual 60) .nil)))) := by
  refine ⟨by decide, by decide⟩

/-- Claim C8 (confirmed): `Distribution` construction enforces
`lower < upper` and `bin_count > 0` through the `check_bounds` validator,
failing with a descriptive error and never clamping:
`(bin_count=10, lower=50, upper=10)` and `(bin_count=0, lower=0, upper=10)`
fail, `(bin_count=10, lower=0, upper=10)` succeeds and stores the given
values unchanged. -/
theorem claim_C8_distribution_invariant :
    Distribution.make 10 50 10 = .error "Lower bound must be a integer less than upper bound" ∧
    Distribution.make 0 0 10 = .error "Bin count must be a integer greater than 0 (e.g., 10 or 25)" ∧
    Distribution.make 10 0 10 = .ok ⟨10, 0, 10⟩ := by
  refine ⟨by decide, by decide, by decide⟩

/-- Claim C9 (confirmed): parsing `AND()` fails with a `SyntaxError` rather
than producing a `Logical` node with zero children: `expr_list`
unconditionally parses a first `expr`, whose `condition` branch demands an
`IDENT` and finds the `RPAREN` at position 2. -/
theorem claim_C9_and_empty_args_syntax_error :
    parse_filter_string "AND()" = .error (.syntaxError "IDENT" ("RPAREN", ")") 2) := by
  decide

/-- Claim C10 (confirmed): a distribution spec whose KPI field is a valid
alias of a KPI, but not that KPI's canonical value after upper-casing, is
silently ignored: the spec parses without error, yet the metric resolved
from the same alias gets `distribution = None`, because the spec map is
keyed by the upper-cased raw text (`dist_map[kpi_str.upper()]`,
cli_token_parser.py line 179) while the metric lookup uses the canonical
value (`dist_map.get(kpi.value)`, line 191). -/
theorem claim_C10_alias_distribution_silently_ignored (s : String) (k : KPI) (b : Bool)
    (hres : KPI.fromValue? s = some k)
    (hsplit : pySplit ':' (s ++ ":10:0:120") = [s, "10", "0", "120"])
    (hne : pyUpper s ≠ KPI.value k) :
    parse_metrics [s] [s ++ ":10:0:120"] b = .ok [⟨k, b, none⟩] := by
  have h10 : pyInt? "10" = some 10 := by decide
  have h0 : pyInt? "0" = some 0 := by decide
  have h120 : pyInt? "120" = some 120 := by decide
  have hd : Distribution.make 10 0 120 = .ok ⟨10, 0, 120⟩ := by decide
  have hbeq : (pyUpper s == KPI.value k) = false := beq_eq_false_iff_ne.mpr hne
  simp only [parse_metrics, buildDistMap, hsplit, h10, h0, h120, hd, metricsLoop, hres,
    dictGet, List.find?, hbeq]

set_option maxHeartbeats 1000000 in
/-- Witness for claim C10 at the alias `"door to needle"` of `KPI.Dtn`
(canonical value `"DTN"`). -/
theorem claim_C10_alias_distribution_silently_ignored_witness :
    parse_metrics ["door to needle"] ["door to needle" ++ ":10:0:120"] true =
      .ok [⟨.Dtn, true, none⟩] :=
  claim_C10_alias_distribution_silently_ignored "door to needle" .Dtn true
    (by decide) (by decide) (by decide)
